import Mathlib

/-!
Verification of the episode-control core of `HighwayEnvV1`
(`src/highway_env/envs/highway_env_v1.py`): reward composition,
termination/truncation evaluation, scene population and the
delayed-action stepper.

Numeric quantities handled by floating point in the source are modelled
over `ℝ` (with `Real.cos` and `Real.pi` for the transcendental
primitives); counts are `ℕ`/`ℤ`, and the delayed-action stepper, whose
arithmetic is rational, is modelled over `ℚ` so it stays executable.
-/

namespace HighwayEnv

/-- Modelled from the spec: `utils.lmap` is imported from
`highway_env.utils`, which is not part of the shown source.  The spec
defines it as "rescaling a value from one interval to another by linear
interpolation, without clamping": `y0 + (v - x0) * (y1 - y0) / (x1 - x0)`. -/
noncomputable def lmap (v : ℝ) (x y : ℝ × ℝ) : ℝ :=
  y.1 + (v - x.1) * (y.2 - y.1) / (x.2 - x.1)

/-- `np.clip(v, lo, hi)`: clamp `v` into `[lo, hi]` (numpy primitive). -/
noncomputable def clip (v lo hi : ℝ) : ℝ :=
  min (max v lo) hi

/-- The ego-vehicle state as read by this core: the fields the source
accesses on `self.vehicle`, together with the values of the external
road-network queries it makes (`all_side_lanes` length, lane width,
lane-local lateral coordinate). -/
structure Vehicle where
  speed : Real
  heading : Real
  crashed : Bool
  onRoad : Bool
  /-- `isinstance(self.vehicle, ControlledVehicle)` -/
  isControlled : Bool
  /-- `self.vehicle.lane_index[2]` -/
  laneIdx2 : Nat
  /-- `self.vehicle.target_lane_index[2]` -/
  targetLaneIdx2 : Nat
  /-- `self.vehicle.lane.width` -/
  laneWidth : Real
  /-- `self.vehicle.lane.local_coordinates(self.vehicle.position)[1]` -/
  lateralPos : Real
  /-- `len(self.road.network.all_side_lanes(self.vehicle.lane_index))` -/
  neighbourCount : Nat

/-- The mapping returned by `_rewards`: the seven fixed term names, in
dict insertion order. -/
structure RewardTerms where
  collision_reward : Real
  right_lane_reward : Real
  high_speed_reward : Real
  on_road_reward : Real
  heading_penalty : Real
  lane_centering : Real
  stopping_penalty : Real

/-- The configuration entries this core consumes.  The reward-weight
table models the `config` dict as consulted by `config.get(name, 0)`:
an association list from key name to numeric value. -/
structure Config where
  weights : List (String × Real)
  /-- `config["reward_speed_range"]` -/
  rewardSpeedRange : Real × Real
  /-- `config["normalize_reward"]` -/
  normalize_reward : Bool
  /-- `config["offroad_terminal"]` -/
  offroad_terminal : Bool
  /-- `config["duration"]` -/
  duration : Real
  /-- `config["vehicles_count"]` -/
  vehicles_count : Nat
  /-- `config["controlled_vehicles"]` -/
  controlled_vehicles : Nat

/-- `self.config.get(name, 0)`. -/
noncomputable def Config.get (cfg : Config) (name : String) : Real :=
  (cfg.weights.lookup name).getD 0

/-- `forward_speed = self.vehicle.speed * np.cos(self.vehicle.heading)`. -/
noncomputable def forwardSpeed (v : Vehicle) : Real :=
  v.speed * Real.cos v.heading

/-- `scaled_speed = utils.lmap(forward_speed, self.config["reward_speed_range"], [0, 1])`. -/
noncomputable def scaledSpeed (cfg : Config) (v : Vehicle) : Real :=
  lmap (forwardSpeed v) cfg.rewardSpeedRange (0, 1)

/-- The side-effecting terminal check inside `_rewards`:
`abs(self.vehicle.heading) > 0.5 * np.pi or (scaled_speed < -0.1 and self.time > 1)`. -/
def crashCondition (cfg : Config) (time : Real) (v : Vehicle) : Prop :=
  |v.heading| > 0.5 * Real.pi ∨ (scaledSpeed cfg v < -0.1 ∧ time > 1)

noncomputable instance : Decidable (crashCondition cfg time v) :=
  Classical.propDecidable _

/-- Embedding of `_rewards(self, action)`.  The source mutates
`self.vehicle.crashed` before building the returned dict, so the
embedding returns the updated vehicle together with the term mapping. -/
noncomputable def rewardsFn (cfg : Config) (time : Real) (v : Vehicle) :
    Vehicle × RewardTerms :=
  let neighboursLen := v.neighbourCount
  let lane : Nat := if v.isControlled then v.targetLaneIdx2 else v.laneIdx2
  let forward_speed := v.speed * Real.cos v.heading
  let scaled_speed := lmap forward_speed cfg.rewardSpeedRange (0, 1)
  let heading_penalty := -|v.heading| / (0.5 * Real.pi)
  let speed_reward :=
    if forward_speed < 5 then forward_speed / 5 else clip scaled_speed 0 1
  let lane_width := v.laneWidth
  let lane_pos := v.lateralPos
  let lane_centering := -|lane_pos| / (lane_width / 2)
  let v' := if crashCondition cfg time v then { v with crashed := true } else v
  (v',
    { collision_reward := if v'.crashed then 1 else 0
      right_lane_reward := (lane : Real) / ((max ((neighboursLen : Int) - 1) 1 : Int) : Real)
      high_speed_reward := speed_reward
      on_road_reward := if v.onRoad then 1 else 0
      heading_penalty := heading_penalty
      lane_centering := lane_centering * 0.1
      stopping_penalty := if forward_speed < 2 then -0.5 else 0 })

/-- `sum(self.config.get(name, 0) * reward for name, reward in rewards.items())`,
the items enumerated in dict insertion order. -/
noncomputable def weightedSum (cfg : Config) (t : RewardTerms) : Real :=
  cfg.get "collision_reward" * t.collision_reward +
  cfg.get "right_lane_reward" * t.right_lane_reward +
  cfg.get "high_speed_reward" * t.high_speed_reward +
  cfg.get "on_road_reward" * t.on_road_reward +
  cfg.get "heading_penalty" * t.heading_penalty +
  cfg.get "lane_centering" * t.lane_centering +
  cfg.get "stopping_penalty" * t.stopping_penalty

/-- Embedding of `HighwayEnvV1._reward(self, action)`.  Returns the
post-call vehicle (the `_rewards` call may set the crashed flag) and the
scalar reward. -/
noncomputable def rewardFn (cfg : Config) (time : Real) (v : Vehicle) :
    Vehicle × Real :=
  let res := rewardsFn cfg time v
  let rewards := res.2
  let reward := weightedSum cfg rewards
  let reward :=
    if cfg.normalize_reward then
      lmap reward
        (cfg.get "collision_reward",
          cfg.get "high_speed_reward" + cfg.get "right_lane_reward")
        (0, 1)
    else reward
  (res.1, reward * rewards.on_road_reward)

/-- Embedding of `_is_terminated(self)`. -/
def isTerminated (cfg : Config) (v : Vehicle) : Bool :=
  v.crashed || (cfg.offroad_terminal && !v.onRoad)

/-- Embedding of `_is_truncated(self)`: `self.time >= self.config["duration"]`. -/
noncomputable def isTruncated (cfg : Config) (time : Real) : Bool :=
  decide (time ≥ cfg.duration)

/-- The scalar reward as the spec states it (spec-side definition for the
refinement claim): the weighted sum of the seven named terms with weights
looked up by `config.get(name, 0)`; if `normalize_reward` is set, that sum
affine-mapped (not clamped) from
`[collision_reward weight, high_speed_reward weight + right_lane_reward weight]`
to `[0, 1]`; finally multiplied by the `on_road_reward` term. -/
noncomputable def specScalarReward (cfg : Config) (t : RewardTerms) : Real :=
  let base :=
    cfg.get "collision_reward" * t.collision_reward +
    cfg.get "right_lane_reward" * t.right_lane_reward +
    cfg.get "high_speed_reward" * t.high_speed_reward +
    cfg.get "on_road_reward" * t.on_road_reward +
    cfg.get "heading_penalty" * t.heading_penalty +
    cfg.get "lane_centering" * t.lane_centering +
    cfg.get "stopping_penalty" * t.stopping_penalty
  (if cfg.normalize_reward then
      lmap base
        (cfg.get "collision_reward",
          cfg.get "high_speed_reward" + cfg.get "right_lane_reward")
        (0, 1)
    else base) * t.on_road_reward

/- ### Scene populator -/

/-- Modelled from the spec: `utils.near_split` is imported from
`highway_env.utils`, which is not part of the shown source.  The spec
says traffic vehicles are "split as evenly as possible across controlled
vehicles (remainder distributed across the first groups, not
fractionally)": `num_bins` bins of size `x / num_bins`, the first
`x % num_bins` of them enlarged by one. -/
def near_split (x : Nat) (num_bins : Nat) : List Nat :=
  List.replicate (x % num_bins) (x / num_bins + 1) ++
    List.replicate (num_bins - x % num_bins) (x / num_bins)

/-- Whether a vehicle placed by `_create_vehicles` is a controlled
vehicle (wrapped in `self.action_type.vehicle_class`) or a traffic
vehicle (`other_vehicles_type.create_random(...)`). -/
inductive VehicleKind where
  | controlled
  | traffic
deriving DecidableEq

/-- A vehicle token placed by `_create_vehicles`, identified by the
controlled-vehicle group it was created in, its kind, and its position
within that group's traffic share. -/
structure SceneVehicle where
  group : Nat
  kind : VehicleKind
  idx : Nat
deriving DecidableEq

/-- The controlled vehicle created for group `g`. -/
def controlledVehicle (g : Nat) : SceneVehicle :=
  ⟨g, .controlled, 0⟩

/-- The `i`-th traffic vehicle created in group `g`. -/
def trafficVehicle (g : Nat) (i : Nat) : SceneVehicle :=
  ⟨g, .traffic, i⟩

/-- The loop body of `_create_vehicles`: for each entry `others` of
`other_per_controlled` (group index `g`), append one controlled vehicle
to both `self.controlled_vehicles` and `self.road.vehicles`, then append
`others` traffic vehicles to `self.road.vehicles` only.  Returns
`(controlled_vehicles, road.vehicles)`. -/
def createVehiclesAux (g : Nat) :
    List Nat → List SceneVehicle × List SceneVehicle
  | [] => ([], [])
  | others :: rest =>
    let tail := createVehiclesAux (g + 1) rest
    (controlledVehicle g :: tail.1,
      (controlledVehicle g :: (List.range others).map (trafficVehicle g)) ++ tail.2)

/-- Embedding of `_create_vehicles(self)`: split
`config["vehicles_count"]` into `config["controlled_vehicles"]` bins
with `near_split`, then run the population loop. -/
def createVehicles (cfg : Config) : List SceneVehicle × List SceneVehicle :=
  createVehiclesAux 0 (near_split cfg.vehicles_count cfg.controlled_vehicles)

/- ### Delayed-action stepper -/

/-- Python `int(q)`: truncation toward zero. -/
def pyInt (q : Rat) : Int :=
  if 0 ≤ q then ⌊q⌋ else -⌊-q⌋

/-- The environment state touched by `elapse`, over an abstract world
`W` holding the road/vehicle state advanced by the external collaborators
`road.act()` and `road.step(dt)`. -/
structure ElapseEnv (W : Type) where
  /-- `self.unwrapped.vehicle.action["steering"]` -/
  steering : Rat
  /-- The road/vehicle state advanced by `road.act()` / `road.step(dt)`. -/
  world : W
  /-- `self._delay` -/
  delay : Rat
  /-- `self._delayed_frequencies` -/
  delayedFrequencies : Int

/-- The loop of `elapse`: `for _ in range(n): road.act(); road.step(dt)`. -/
def runTicks {W : Type} (act : W → W) (stepW : Rat → W → W) (dt : Rat) :
    Nat → W → W
  | 0, w => w
  | n + 1, w => runTicks act stepW dt n (stepW dt (act w))

/-- Embedding of `elapse(self, delay, reset_steering=False)`. `freq` is
`self.unwrapped.config["simulation_frequency"]`; `act` and `stepW` are
the external collaborators `road.act()` and `road.step(dt)`. -/
def elapse {W : Type} (freq : Rat) (act : W → W) (stepW : Rat → W → W)
    (env : ElapseEnv W) (delay : Rat) (reset_steering : Bool) : ElapseEnv W :=
  let env := { env with delay := delay }
  let env := if reset_steering then { env with steering := 0 } else env
  let n := pyInt (env.delay * freq)
  { env with
      delayedFrequencies := n
      world := runTicks act stepW (1 / freq) n.toNat env.world }

/- ### Default configuration -/

/-- The numeric scalar entries of the `config.update({...})` dict in
`HighwayEnvV1.default_config` (the table consulted by
`config.get(name, 0)` in `_reward`). -/
noncomputable def defaultWeights : List (String × Real) :=
  [("lanes_count", 4), ("vehicles_count", 20), ("controlled_vehicles", 1),
    ("duration", 40), ("ego_spacing", 2), ("vehicles_density", 0.7),
    ("collision_reward", -1), ("right_lane_reward", 0.1),
    ("high_speed_reward", 0.4), ("lane_change_reward", -0.05),
    ("stopping_penalty", -0.5), ("reverse_reward", -0.5)]

/-- The key names of the full default configuration dict: the keys set
by `HighwayEnvV1.default_config`'s `config.update({...})`, followed by
the inherited keys.  Modelled from the spec: the parent class
`AbstractEnv.default_config` is not part of the shown source; the spec's
list of configuration keys consumed by this core adds exactly
`simulation_frequency` and `other_vehicles_type`, and `_create_road`
additionally reads `show_trajectories`. -/
def defaultKeys : List String :=
  ["observation", "action", "lanes_count", "vehicles_count",
    "controlled_vehicles", "initial_lane_id", "duration", "ego_spacing",
    "vehicles_density", "collision_reward", "right_lane_reward",
    "high_speed_reward", "lane_change_reward", "reward_speed_range",
    "stopping_penalty", "reverse_reward", "normalize_reward",
    "offroad_terminal", "simulation_frequency", "other_vehicles_type",
    "show_trajectories"]

/-- The default configuration of `HighwayEnvV1`, restricted to the
entries this core consumes. -/
noncomputable def defaultConfig : Config where
  weights := defaultWeights
  rewardSpeedRange := (10, 25)
  normalize_reward := true
  offroad_terminal := true
  duration := 40
  vehicles_count := 20
  controlled_vehicles := 1

/- ### Helper lemmas -/

theorem rewardsFn_snd (cfg : Config) (time : Real) (v : Vehicle) :
    (rewardsFn cfg time v).2 =
      { collision_reward := if (rewardsFn cfg time v).1.crashed then 1 else 0
        right_lane_reward :=
          (((if v.isControlled then v.targetLaneIdx2 else v.laneIdx2 : Nat)) : Real) /
            ((max ((v.neighbourCount : Int) - 1) 1 : Int) : Real)
        high_speed_reward :=
          if forwardSpeed v < 5 then forwardSpeed v / 5
          else clip (scaledSpeed cfg v) 0 1
        on_road_reward := if v.onRoad then 1 else 0
        heading_penalty := -|v.heading| / (0.5 * Real.pi)
        lane_centering := -|v.lateralPos| / (v.laneWidth / 2) * 0.1
        stopping_penalty := if forwardSpeed v < 2 then -0.5 else 0 } := by
  by_cases h : crashCondition cfg time v <;>
    simp [rewardsFn, forwardSpeed, scaledSpeed, h]

theorem rewardsFn_fst_crashed (cfg : Config) (time : Real) (v : Vehicle) :
    (rewardsFn cfg time v).1.crashed =
      (v.crashed || decide (crashCondition cfg time v)) := by
  by_cases h : crashCondition cfg time v <;> simp [rewardsFn, h]

theorem rewardFn_snd (cfg : Config) (time : Real) (v : Vehicle) :
    (rewardFn cfg time v).2 =
      (if cfg.normalize_reward then
          lmap (weightedSum cfg (rewardsFn cfg time v).2)
            (cfg.get "collision_reward",
              cfg.get "high_speed_reward" + cfg.get "right_lane_reward")
            (0, 1)
        else weightedSum cfg (rewardsFn cfg time v).2) *
      (rewardsFn cfg time v).2.on_road_reward := by
  simp [rewardFn]

/- ### Claim theorems -/

/-- C1: For every configuration and every vehicle/road state, the scalar
returned by `_reward(action)` equals the sum over the term names of
`config.get(name, 0)` times the term's value from `_rewards(action)`; if
`normalize_reward` is set, that sum affine-mapped (not clamped) from
`[collision_reward weight, high_speed_reward weight + right_lane_reward
weight]` to `[0, 1]`; and finally multiplied by the `on_road_reward` term,
so the reward is exactly 0 whenever the vehicle is off-road. -/
theorem reward_matches_spec_formula (cfg : Config) (time : Real) (v : Vehicle) :
    (rewardFn cfg time v).2 = specScalarReward cfg (rewardsFn cfg time v).2 ∧
    (v.onRoad = false → (rewardFn cfg time v).2 = 0) := by
  constructor
  · rw [rewardFn_snd]
    simp [specScalarReward, weightedSum]
  · intro h
    rw [rewardFn_snd]
    have hz : (rewardsFn cfg time v).2.on_road_reward = 0 := by
      rw [rewardsFn_snd]; simp [h]
    rw [hz, mul_zero]

theorem reward_matches_spec_formula_witness :
    (rewardFn defaultConfig 0 ⟨0, 0, false, false, false, 0, 0, 4, 0, 4⟩).2 = 0 :=
  (reward_matches_spec_formula defaultConfig 0
    ⟨0, 0, false, false, false, 0, 0, 4, 0, 4⟩).2 rfl

/-- C2: For every vehicle/road state, the mapping returned by
`_rewards(action)` has exactly the seven fixed names with values:
`collision_reward = 1.0 if crashed else 0.0`;
`right_lane_reward = lane_rank / max(neighbor_count - 1, 1)` with
`lane_rank` the third component of the target lane index for a controlled
vehicle and of the current lane index otherwise;
`high_speed_reward = forward_speed / 5` when `forward_speed < 5` (may be
negative) and `clip(lmap(forward_speed, reward_speed_range, [0,1]), 0, 1)`
otherwise, with `forward_speed = speed * cos(heading)`;
`on_road_reward = 1.0 if on-road else 0.0`;
`heading_penalty = -|heading| / (pi/2)`;
`lane_centering = 0.1 * (-|lateral_offset| / (lane_width / 2))`;
`stopping_penalty = -0.5 if forward_speed < 2 else 0`.
(The crashed flag read by `collision_reward` is the one after the
side-effecting terminal check of the same call.) -/
theorem rewards_term_values (cfg : Config) (time : Real) (v : Vehicle) :
    (rewardsFn cfg time v).2.collision_reward
        = (if (rewardsFn cfg time v).1.crashed then 1 else 0) ∧
    (rewardsFn cfg time v).2.right_lane_reward
        = (((if v.isControlled then v.targetLaneIdx2 else v.laneIdx2 : Nat)) : Real) /
            ((max ((v.neighbourCount : Int) - 1) 1 : Int) : Real) ∧
    (rewardsFn cfg time v).2.high_speed_reward
        = (if forwardSpeed v < 5 then forwardSpeed v / 5
            else clip (lmap (forwardSpeed v) cfg.rewardSpeedRange (0, 1)) 0 1) ∧
    (rewardsFn cfg time v).2.on_road_reward = (if v.onRoad then 1 else 0) ∧
    (rewardsFn cfg time v).2.heading_penalty = -|v.heading| / (Real.pi / 2) ∧
    (rewardsFn cfg time v).2.lane_centering
        = 0.1 * (-|v.lateralPos| / (v.laneWidth / 2)) ∧
    (rewardsFn cfg time v).2.stopping_penalty
        = (if forwardSpeed v < 2 then -0.5 else 0) := by
  rw [rewardsFn_snd]
  refine ⟨rfl, rfl, ?_, rfl, ?_, mul_comm _ _, rfl⟩
  · simp [scaledSpeed]
  · rw [show (0.5 : Real) * Real.pi = Real.pi / 2 by ring]

/-- C3: During reward computation, the ego vehicle's crashed flag is set
to true exactly when `|heading| > pi/2`, or when `scaled_speed < -0.1`
and elapsed time `> 1` (the flag stays true if it already was); the flag
is never cleared by `_rewards`; once the flag is true the
`collision_reward` term equals 1.0 on that call and on every subsequent
`_rewards` call (until an external reset replaces the vehicle). -/
theorem crash_flag_persistence (cfg : Config) (time : Real) (v : Vehicle) :
    ((rewardsFn cfg time v).1.crashed
        = (v.crashed || decide (crashCondition cfg time v))) ∧
    (∀ (t : Real) (u : Vehicle), u.crashed = true →
      (rewardsFn cfg t u).1.crashed = true) ∧
    (∀ (t : Real) (u : Vehicle), (rewardsFn cfg t u).1.crashed = true →
      (rewardsFn cfg t u).2.collision_reward = 1) ∧
    (∀ (times : List Real), (rewardsFn cfg time v).1.crashed = true →
      (times.foldl (fun u t => (rewardsFn cfg t u).1)
          (rewardsFn cfg time v).1).crashed = true) := by
  have mono : ∀ (t : Real) (u : Vehicle), u.crashed = true →
      (rewardsFn cfg t u).1.crashed = true := by
    intro t u h
    rw [rewardsFn_fst_crashed, h, Bool.true_or]
  have key : ∀ (times : List Real) (w : Vehicle), w.crashed = true →
      (times.foldl (fun u t => (rewardsFn cfg t u).1) w).crashed = true := by
    intro times
    induction times with
    | nil => intro w h; simpa using h
    | cons t ts ih =>
        intro w h
        simp only [List.foldl_cons]
        exact ih _ (mono t w h)
  refine ⟨rewardsFn_fst_crashed cfg time v, mono, ?_, fun times h => key times _ h⟩
  intro t u h
  rw [rewardsFn_snd, h]
  rfl

theorem crash_flag_persistence_witness :
    (rewardsFn defaultConfig 0 ⟨0, 0, true, true, false, 0, 0, 4, 0, 4⟩).2.collision_reward
      = 1 :=
  (crash_flag_persistence defaultConfig 0
      ⟨0, 0, true, true, false, 0, 0, 4, 0, 4⟩).2.2.1 0
    ⟨0, 0, true, true, false, 0, 0, 4, 0, 4⟩
    ((crash_flag_persistence defaultConfig 0
        ⟨0, 0, true, true, false, 0, 0, 4, 0, 4⟩).2.1 0
      ⟨0, 0, true, true, false, 0, 0, 4, 0, 4⟩ rfl)

/-- C4: For every state, `_is_terminated()` returns true if and only if
the ego vehicle's crashed flag is true, or the `offroad_terminal`
configuration flag is true and the vehicle is not on-road; it reads no
other state (two configurations/vehicles agreeing on exactly these three
fields get the same answer) and, being a pure function of them, mutates
nothing. -/
theorem isTerminated_iff (cfg cfg2 : Config) (v v2 : Vehicle) :
    (isTerminated cfg v = true ↔
      (v.crashed = true ∨ (cfg.offroad_terminal = true ∧ v.onRoad = false))) ∧
    (v.crashed = v2.crashed → v.onRoad = v2.onRoad →
      cfg.offroad_terminal = cfg2.offroad_terminal →
      isTerminated cfg v = isTerminated cfg2 v2) := by
  constructor
  · simp [isTerminated]
  · intro h1 h2 h3
    simp [isTerminated, h1, h2, h3]

theorem isTerminated_iff_witness :
    isTerminated defaultConfig ⟨0, 0, true, true, false, 0, 0, 4, 0, 4⟩ = true ∧
    isTerminated defaultConfig ⟨0, 0, true, true, false, 0, 0, 4, 0, 4⟩
      = isTerminated defaultConfig ⟨5, 1, true, true, true, 2, 3, 6, 1, 7⟩ :=
  ⟨(isTerminated_iff defaultConfig defaultConfig
      ⟨0, 0, true, true, false, 0, 0, 4, 0, 4⟩
      ⟨5, 1, true, true, true, 2, 3, 6, 1, 7⟩).1.mpr (Or.inl rfl),
    (isTerminated_iff defaultConfig defaultConfig
      ⟨0, 0, true, true, false, 0, 0, 4, 0, 4⟩
      ⟨5, 1, true, true, true, 2, 3, 6, 1, 7⟩).2 rfl rfl rfl⟩

/-- C5: For every state, `_is_truncated()` returns true if and only if
elapsed simulation time is greater than or equal to the configured
duration, and returns false for every elapsed time strictly below the
duration; it is computed independently of the terminated condition (it
is a function of the clock and configuration only), and both may be true
simultaneously. -/
theorem isTruncated_iff (cfg : Config) (time : Real) :
    (isTruncated cfg time = true ↔ time ≥ cfg.duration) ∧
    (time < cfg.duration → isTruncated cfg time = false) ∧
    (∃ (v : Vehicle) (t : Real),
      isTerminated cfg v = true ∧ isTruncated cfg t = true) := by
  refine ⟨by simp [isTruncated], ?_, ?_⟩
  · intro h
    simp only [isTruncated, decide_eq_false_iff_not]
    exact not_le.mpr h
  · exact ⟨⟨0, 0, true, true, false, 0, 0, 0, 0, 0⟩, cfg.duration,
      by simp [isTerminated], by simp [isTruncated]⟩

theorem isTruncated_iff_witness :
    isTruncated defaultConfig 0 = false ∧ isTruncated defaultConfig 40 = true :=
  ⟨(isTruncated_iff defaultConfig 0).2.1 (by norm_num [defaultConfig]),
    (isTruncated_iff defaultConfig 40).1.mpr (by norm_num [defaultConfig])⟩

/-- C6: For every neighbour count `≥ 1` and every lane rank valid for
the road network's neighbour list (the rank indexes into the list), the
`right_lane_reward` term lies in `[0, 1]`, and it equals 0 when the
neighbour count is 1; the denominator `max(neighbor_count - 1, 1)` is
floored at 1, so the division never divides by zero. -/
theorem right_lane_reward_bounds (cfg : Config) (time : Real) (v : Vehicle)
    (h1 : 1 ≤ v.neighbourCount)
    (h2 : (if v.isControlled then v.targetLaneIdx2 else v.laneIdx2) < v.neighbourCount) :
    (1 ≤ max ((v.neighbourCount : Int) - 1) 1) ∧
    (0 ≤ (rewardsFn cfg time v).2.right_lane_reward ∧
      (rewardsFn cfg time v).2.right_lane_reward ≤ 1) ∧
    (v.neighbourCount = 1 → (rewardsFn cfg time v).2.right_lane_reward = 0) := by
  have key : (rewardsFn cfg time v).2.right_lane_reward
      = (((if v.isControlled then v.targetLaneIdx2 else v.laneIdx2 : Nat)) : Real) /
        ((max ((v.neighbourCount : Int) - 1) 1 : Int) : Real) := by
    rw [rewardsFn_snd]
  have hd : (1 : Int) ≤ max ((v.neighbourCount : Int) - 1) 1 := le_max_right _ _
  have hdR : (0 : Real) < ((max ((v.neighbourCount : Int) - 1) 1 : Int) : Real) := by
    exact_mod_cast lt_of_lt_of_le Int.zero_lt_one hd
  refine ⟨hd, ⟨?_, ?_⟩, ?_⟩
  · rw [key]
    exact div_nonneg (Nat.cast_nonneg _) hdR.le
  · rw [key, div_le_one hdR]
    have h3 : (((if v.isControlled then v.targetLaneIdx2 else v.laneIdx2 : Nat)) : Int)
        ≤ max ((v.neighbourCount : Int) - 1) 1 := by
      refine le_trans ?_ (le_max_left _ _)
      omega
    exact_mod_cast h3
  · intro hn
    have h0 : (if v.isControlled then v.targetLaneIdx2 else v.laneIdx2) = 0 := by omega
    rw [key, h0]
    simp

theorem right_lane_reward_bounds_witness :
    (rewardsFn defaultConfig 0
      ⟨0, 0, false, true, false, 0, 0, 4, 0, 1⟩).2.right_lane_reward = 0 :=
  (right_lane_reward_bounds defaultConfig 0
    ⟨0, 0, false, true, false, 0, 0, 4, 0, 1⟩ (by decide) (by decide)).2.2 rfl

theorem near_split_length (x n : Nat) (h : 0 < n) : (near_split x n).length = n := by
  have hlt : x % n < n := Nat.mod_lt x h
  simp only [near_split, List.length_append, List.length_replicate]
  omega

theorem near_split_sum (x n : Nat) (h : 0 < n) : (near_split x n).sum = x := by
  have hlt : x % n < n := Nat.mod_lt x h
  have e3 : (x % n) * (x / n) ≤ n * (x / n) := Nat.mul_le_mul_right _ hlt.le
  have main : (x % n) * (x / n + 1) + (n - x % n) * (x / n) = x := by
    rw [Nat.mul_add, Nat.mul_one, Nat.sub_mul]
    rw [Nat.add_comm ((x % n) * (x / n)) (x % n), Nat.add_assoc,
      Nat.add_sub_cancel' e3]
    exact Nat.mod_add_div x n
  simpa [near_split, List.sum_append, List.sum_replicate, smul_eq_mul] using main

theorem createVehiclesAux_fst (g : Nat) (l : List Nat) :
    (createVehiclesAux g l).1
      = (List.range l.length).map (fun i => controlledVehicle (g + i)) := by
  induction l generalizing g with
  | nil => simp [createVehiclesAux]
  | cons a rest ih =>
      have harith : ∀ i : Nat, g + 1 + i = g + (i + 1) := by omega
      simp [createVehiclesAux, ih (g + 1), List.range_succ_eq_map,
        Function.comp, harith]

theorem createVehiclesAux_snd_length (g : Nat) (l : List Nat) :
    (createVehiclesAux g l).2.length = l.length + l.sum := by
  induction l generalizing g with
  | nil => simp [createVehiclesAux]
  | cons a rest ih =>
      simp [createVehiclesAux, ih (g + 1)]
      omega

theorem createVehiclesAux_group_lb (g : Nat) (l : List Nat) :
    ∀ x ∈ (createVehiclesAux g l).2, g ≤ x.group := by
  induction l generalizing g with
  | nil => simp [createVehiclesAux]
  | cons a rest ih =>
      intro x hx
      simp only [createVehiclesAux, List.mem_append, List.mem_cons] at hx
      rcases hx with (rfl | hx) | hx
      · exact le_refl _
      · rcases List.mem_map.mp hx with ⟨i, _, rfl⟩
        exact le_refl _
      · exact le_trans (Nat.le_succ g) (ih (g + 1) x hx)

theorem createVehiclesAux_snd_nodup (g : Nat) (l : List Nat) :
    (createVehiclesAux g l).2.Nodup := by
  induction l generalizing g with
  | nil => simp [createVehiclesAux]
  | cons a rest ih =>
      simp only [createVehiclesAux]
      refine List.Nodup.append ?_ (ih (g + 1)) ?_
      · refine List.nodup_cons.mpr ⟨?_, ?_⟩
        · intro hmem
          rcases List.mem_map.mp hmem with ⟨i, _, he⟩
          have := congrArg SceneVehicle.kind he
          simp [trafficVehicle, controlledVehicle] at this
        · exact List.Nodup.map (fun i j hij => congrArg SceneVehicle.idx hij)
            (List.nodup_range a)
      · intro x hxblock hxtail
        have h1 : x.group = g := by
          rcases List.mem_cons.mp hxblock with rfl | hmem
          · rfl
          · rcases List.mem_map.mp hmem with ⟨i, _, rfl⟩
            rfl
        have h2 : g + 1 ≤ x.group := createVehiclesAux_group_lb (g + 1) rest x hxtail
        omega

theorem createVehiclesAux_fst_subset (g : Nat) (l : List Nat) :
    ∀ x ∈ (createVehiclesAux g l).1, x ∈ (createVehiclesAux g l).2 := by
  induction l generalizing g with
  | nil => simp [createVehiclesAux]
  | cons a rest ih =>
      intro x hx
      simp only [createVehiclesAux, List.mem_cons, List.mem_append] at hx ⊢
      rcases hx with rfl | hx
      · exact Or.inl (Or.inl rfl)
      · exact Or.inr (ih (g + 1) x hx)

theorem createVehiclesAux_traffic_count (g : Nat) (l : List Nat) (j : Nat) :
    ((createVehiclesAux g l).2.filter
        (fun x => x.kind == VehicleKind.traffic && x.group == g + j)).length
      = l.getD j 0 := by
  induction l generalizing g j with
  | nil => simp [createVehiclesAux]
  | cons a rest ih =>
      cases j with
      | zero =>
          simp only [Nat.add_zero]
          have hc0 : ((controlledVehicle g).kind == VehicleKind.traffic &&
              (controlledVehicle g).group == g) = false := by
            simp [controlledVehicle]
          have hmap : List.filter
              (fun x => x.kind == VehicleKind.traffic && x.group == g)
              ((List.range a).map (trafficVehicle g))
              = (List.range a).map (trafficVehicle g) := by
            refine List.filter_eq_self.mpr ?_
            intro x hx
            rcases List.mem_map.mp hx with ⟨i, _, rfl⟩
            simp [trafficVehicle]
          have htail : List.filter
              (fun x => x.kind == VehicleKind.traffic && x.group == g)
              (createVehiclesAux (g + 1) rest).2 = [] := by
            refine List.filter_eq_nil_iff.mpr ?_
            intro x hx
            have hlb := createVehiclesAux_group_lb (g + 1) rest x hx
            simp only [Bool.and_eq_true, beq_iff_eq]
            rintro ⟨-, h2⟩
            omega
          simp [createVehiclesAux, List.filter_cons, List.filter_append,
            hc0, hmap, htail]
      | succ j' =>
          have harith : g + (j' + 1) = (g + 1) + j' := by omega
          rw [harith]
          have hc1 : ((controlledVehicle g).kind == VehicleKind.traffic &&
              (controlledVehicle g).group == (g + 1) + j') = false := by
            simp [controlledVehicle]
          have hmap : List.filter
              (fun x => x.kind == VehicleKind.traffic && x.group == (g + 1) + j')
              ((List.range a).map (trafficVehicle g)) = [] := by
            refine List.filter_eq_nil_iff.mpr ?_
            intro x hx
            rcases List.mem_map.mp hx with ⟨i, _, rfl⟩
            simp only [trafficVehicle, Bool.and_eq_true, beq_iff_eq]
            rintro ⟨-, h2⟩
            omega
          have htail := ih (g + 1) j'
          simp [createVehiclesAux, List.filter_cons, List.filter_append,
            hc1, hmap, htail]

/-- C7: After the scene populator runs at reset, `road.vehicles` contains
exactly `controlled_vehicles + vehicles_count` vehicles, each controlled
and traffic vehicle appearing exactly once (the list has no duplicates
and contains every controlled vehicle); the controlled-vehicle list has
length exactly `controlled_vehicles` and contains only controlled
vehicles in group iteration order, with the `vehicles_count` traffic
vehicles split across the groups as `near_split` dictates (as evenly as
possible). -/
theorem createVehicles_spec (cfg : Config) (h : 0 < cfg.controlled_vehicles) :
    ((createVehicles cfg).2.length
        = cfg.controlled_vehicles + cfg.vehicles_count) ∧
    ((createVehicles cfg).1.length = cfg.controlled_vehicles) ∧
    (createVehicles cfg).2.Nodup ∧
    ((createVehicles cfg).1
        = (List.range cfg.controlled_vehicles).map controlledVehicle) ∧
    (∀ x ∈ (createVehicles cfg).1, x.kind = VehicleKind.controlled) ∧
    (∀ x ∈ (createVehicles cfg).1, x ∈ (createVehicles cfg).2) ∧
    (∀ j : Nat, ((createVehicles cfg).2.filter
          (fun x => x.kind == VehicleKind.traffic && x.group == j)).length
        = (near_split cfg.vehicles_count cfg.controlled_vehicles).getD j 0) := by
  have hlen : (near_split cfg.vehicles_count cfg.controlled_vehicles).length
      = cfg.controlled_vehicles := near_split_length _ _ h
  have hsum : (near_split cfg.vehicles_count cfg.controlled_vehicles).sum
      = cfg.vehicles_count := near_split_sum _ _ h
  refine ⟨?_, ?_, createVehiclesAux_snd_nodup 0 _, ?_, ?_,
    createVehiclesAux_fst_subset 0 _, ?_⟩
  · rw [createVehicles, createVehiclesAux_snd_length, hlen, hsum]
  · rw [createVehicles, createVehiclesAux_fst]
    simp [hlen]
  · rw [createVehicles, createVehiclesAux_fst, hlen]
    simp
  · intro x hx
    rw [createVehicles, createVehiclesAux_fst] at hx
    rcases List.mem_map.mp hx with ⟨i, _, rfl⟩
    rfl
  · intro j
    have := createVehiclesAux_traffic_count 0
      (near_split cfg.vehicles_count cfg.controlled_vehicles) j
    simpa [createVehicles] using this

theorem createVehicles_spec_witness :
    (createVehicles defaultConfig).2.length
        = defaultConfig.controlled_vehicles + defaultConfig.vehicles_count ∧
    (createVehicles defaultConfig).1.length
        = defaultConfig.controlled_vehicles :=
  ⟨(createVehicles_spec defaultConfig Nat.one_pos).1,
    (createVehicles_spec defaultConfig Nat.one_pos).2.1⟩

theorem runTicks_eq_iterate {W : Type} (act : W → W) (stepW : Rat → W → W)
    (dt : Rat) (n : Nat) (w : W) :
    runTicks act stepW dt n w = (fun u => stepW dt (act u))^[n] w := by
  induction n generalizing w with
  | zero => rfl
  | succ k ih =>
      rw [runTicks, Function.iterate_succ_apply]
      exact ih _

/-- C8: For every non-negative delay and configured simulation
frequency, `elapse(delay, reset_steering)` runs exactly
`floor(delay * simulation_frequency)` iterations, each consisting of
`road.act()` followed by `road.step(1 / simulation_frequency)` (no
reward or termination evaluation appears in the loop), and zeroes the
ego vehicle's steering input before the loop exactly when
`reset_steering` is true; in particular `elapse(2.0)` with
`simulation_frequency = 10` runs exactly 20 ticks. -/
theorem elapse_spec {W : Type} (freq : Rat) (act : W → W) (stepW : Rat → W → W)
    (env : ElapseEnv W) (delay : Rat) (rs : Bool)
    (hd : 0 ≤ delay) (hf : 0 ≤ freq) :
    ((elapse freq act stepW env delay rs).world
        = (fun u => stepW (1 / freq) (act u))^[(⌊delay * freq⌋).toNat] env.world) ∧
    ((elapse freq act stepW env delay rs).steering
        = if rs then 0 else env.steering) ∧
    ((elapse freq act stepW env delay rs).delayedFrequencies = ⌊delay * freq⌋) ∧
    ((elapse freq act stepW env delay rs).delay = delay) ∧
    (∀ (env2 : ElapseEnv W) (rs2 : Bool),
      (elapse 10 act stepW env2 2 rs2).world
        = (fun u => stepW (1 / 10) (act u))^[20] env2.world) := by
  have hpy : pyInt (delay * freq) = ⌊delay * freq⌋ :=
    if_pos (mul_nonneg hd hf)
  have h20 : (pyInt ((2 : Rat) * 10)).toNat = 20 := by
    have h2 : pyInt ((2 : Rat) * 10) = 20 := by
      rw [pyInt, if_pos (by norm_num : (0 : Rat) ≤ 2 * 10)]
      norm_num
    rw [h2]
    rfl
  refine ⟨?_, ?_, ?_, ?_, ?_⟩
  · cases rs <;> simp [elapse, hpy, runTicks_eq_iterate]
  · cases rs <;> simp [elapse]
  · cases rs <;> simp [elapse, hpy]
  · cases rs <;> simp [elapse]
  · intro env2 rs2
    cases rs2 <;> simp [elapse, h20, runTicks_eq_iterate]

theorem elapse_spec_witness :
    (elapse 10 (fun w : Nat => w + 1) (fun _ w => w) ⟨5, 0, 0, 0⟩ 2 true).steering = 0 ∧
    (elapse 10 (fun w : Nat => w + 1) (fun _ w => w) ⟨5, 0, 0, 0⟩ 2 true).world = 20 := by
  have h := elapse_spec 10 (fun w : Nat => w + 1) (fun _ w => w)
    ⟨5, 0, 0, 0⟩ 2 true (by norm_num) (by norm_num)
  refine ⟨by simpa using h.2.1, ?_⟩
  rw [h.1]
  have hfl : (⌊(2 : Rat) * 10⌋).toNat = 20 := by
    have h2 : ⌊(2 : Rat) * 10⌋ = 20 := by norm_num
    rw [h2]
    rfl
  rw [hfl]
  simp [Function.iterate_succ_apply]

/-- C9: Under the default configuration, the weight table contains no
keys named `heading_penalty`, `lane_centering`, or `on_road_reward`, so
`config.get(name, 0)` gives these three terms weight 0: the
`heading_penalty` and `lane_centering` terms never appear in the scalar
reward formula at all, and the `on_road_reward` term affects it only
through the final multiplication, not through the weighted sum. -/
theorem default_config_term_weights :
    (defaultKeys.contains "heading_penalty" = false ∧
      defaultKeys.contains "lane_centering" = false ∧
      defaultKeys.contains "on_road_reward" = false) ∧
    (defaultConfig.get "heading_penalty" = 0 ∧
      defaultConfig.get "lane_centering" = 0 ∧
      defaultConfig.get "on_road_reward" = 0) ∧
    ∀ (time : Real) (v : Vehicle),
      (rewardFn defaultConfig time v).2 =
        lmap (defaultConfig.get "collision_reward"
                * (rewardsFn defaultConfig time v).2.collision_reward
              + defaultConfig.get "right_lane_reward"
                * (rewardsFn defaultConfig time v).2.right_lane_reward
              + defaultConfig.get "high_speed_reward"
                * (rewardsFn defaultConfig time v).2.high_speed_reward
              + defaultConfig.get "stopping_penalty"
                * (rewardsFn defaultConfig time v).2.stopping_penalty)
          (defaultConfig.get "collision_reward",
            defaultConfig.get "high_speed_reward"
              + defaultConfig.get "right_lane_reward")
          (0, 1)
        * (rewardsFn defaultConfig time v).2.on_road_reward := by
  have g1 : defaultConfig.get "heading_penalty" = 0 := rfl
  have g2 : defaultConfig.get "lane_centering" = 0 := rfl
  have g3 : defaultConfig.get "on_road_reward" = 0 := rfl
  refine ⟨⟨rfl, rfl, rfl⟩, ⟨g1, g2, g3⟩, ?_⟩
  intro time v
  rw [rewardFn_snd]
  have hn : defaultConfig.normalize_reward = true := rfl
  rw [hn, if_pos rfl]
  rw [weightedSum, g1, g2, g3, zero_mul, zero_mul, zero_mul, add_zero,
    add_zero, add_zero]

/-- C10: Under the default configuration, the `stopping_penalty` weight
is `-0.5` and the `stopping_penalty` term is `-0.5` whenever
`forward_speed < 2`, so their product contributes exactly `+1/4` (a
positive amount, exact in rational arithmetic) to the un-normalized
weighted sum whenever the vehicle's forward speed is below 2: the
configured penalty weight rewards rather than penalizes near-stopping. -/
theorem default_stopping_weight_bonus (time : Real) (v : Vehicle)
    (h : forwardSpeed v < 2) :
    defaultConfig.get "stopping_penalty" = -(1 / 2) ∧
    (rewardsFn defaultConfig time v).2.stopping_penalty = -(1 / 2) ∧
    defaultConfig.get "stopping_penalty"
        * (rewardsFn defaultConfig time v).2.stopping_penalty = 1 / 4 ∧
    (0 : Real) < 1 / 4 ∧
    weightedSum defaultConfig (rewardsFn defaultConfig time v).2 =
      defaultConfig.get "collision_reward"
          * (rewardsFn defaultConfig time v).2.collision_reward
        + defaultConfig.get "right_lane_reward"
          * (rewardsFn defaultConfig time v).2.right_lane_reward
        + defaultConfig.get "high_speed_reward"
          * (rewardsFn defaultConfig time v).2.high_speed_reward
        + 1 / 4 := by
  have hget : defaultConfig.get "stopping_penalty" = -(1 / 2) := by
    have : defaultConfig.get "stopping_penalty" = -0.5 := rfl
    rw [this]; norm_num
  have hstop : (rewardsFn defaultConfig time v).2.stopping_penalty = -(1 / 2) := by
    rw [rewardsFn_snd]
    show (if forwardSpeed v < 2 then (-0.5 : Real) else 0) = -(1 / 2)
    rw [if_pos h]; norm_num
  have hprod : defaultConfig.get "stopping_penalty"
      * (rewardsFn defaultConfig time v).2.stopping_penalty = 1 / 4 := by
    rw [hget, hstop]; norm_num
  refine ⟨hget, hstop, hprod, by norm_num, ?_⟩
  have g1 : defaultConfig.get "heading_penalty" = 0 := rfl
  have g2 : defaultConfig.get "lane_centering" = 0 := rfl
  have g3 : defaultConfig.get "on_road_reward" = 0 := rfl
  rw [weightedSum, g1, g2, g3, zero_mul, zero_mul, zero_mul, add_zero,
    add_zero, add_zero, hget, hstop]
  norm_num

theorem default_stopping_weight_bonus_witness :
    (rewardsFn defaultConfig 0
      ⟨0, 0, false, true, false, 0, 0, 4, 0, 4⟩).2.stopping_penalty = -(1 / 2) :=
  (default_stopping_weight_bonus 0 ⟨0, 0, false, true, false, 0, 0, 4, 0, 4⟩
    (by norm_num [forwardSpeed])).2.1

end HighwayEnv
